import Mathlib

/-!
Verification of the port-allocation coordination service and the config
generation utilities of `hubspot-local-dev-lib`.

The embedding below is a shallow model of the TypeScript source:

* `src/utils/PortManagerServer.ts` — the registry is the JS object
  `serverPortMap`, modelled as an association list with unique keys (JS
  objects cannot hold a key twice).  Each express handler becomes a pure
  function from the registry (plus the request data) to the list of HTTP
  responses it emits, in emission order, together with the registry after
  the handler is done.  Express delivers the first emitted response to the
  client; later `res.send` calls on the same response object are attempts
  that the HTTP layer rejects.  JS truthiness of `serverPortMap[id]`
  (`undefined` and `0` are falsy) is modelled explicitly.
* `src/config/configUtils.ts` — `generateConfig` and its per-auth-type
  account generators.

External collaborators that the source imports but that are not part of the
reviewed sources (`detectPort`, the port/auth constants, the i18n message
catalogue) are modelled from the contracts in the spec as parameters or as
explicitly marked definitions.
-/

namespace LocalDevLib

/-- The registry type `ServerPortMap = { [instanceId: string]: number }`:
a JS object from instance ids to port numbers, modelled as an association
list whose keys are unique. -/
abbrev ServerPortMap := List (String × Nat)

/-- Property read `serverPortMap[instanceId]`: the value stored at the key,
if present. -/
def lookupPort : ServerPortMap → String → Option Nat
  | [], _ => none
  | entry :: rest, id => if entry.1 = id then some entry.2 else lookupPort rest id

/-- JS truthiness of `this.serverPortMap[instanceId]`: the read is truthy
exactly when the key is present and the stored number is not `0`
(`undefined` and `0` are both falsy in JS). -/
def portTruthy (m : ServerPortMap) (id : String) : Bool :=
  match lookupPort m id with
  | some p => p != 0
  | none => false

/-- `Object.keys(this.serverPortMap)`. -/
def objectKeys (m : ServerPortMap) : List String :=
  m.map Prod.fst

/-- `setPort`: JS assignment `this.serverPortMap[instanceId] = port`.
An existing key keeps its position and gets the new value; a new key is
appended. -/
def setPort : ServerPortMap → String → Nat → ServerPortMap
  | [], id, p => [(id, p)]
  | entry :: rest, id, p =>
    if entry.1 = id then (id, p) :: rest else entry :: setPort rest id p

/-- `deletePort`: JS `delete this.serverPortMap[instanceId]` removes the
key when present. -/
def deletePort : ServerPortMap → String → ServerPortMap
  | [], _ => []
  | entry :: rest, id => if entry.1 = id then rest else entry :: deletePort rest id

/-- Registry states reachable while the service runs: a JS object never
holds a key twice, and every recorded port came from a port detection, so
it is an actual (nonzero) TCP port number. -/
def WellFormedMap (m : ServerPortMap) : Prop :=
  (objectKeys m).Nodup ∧ ∀ entry ∈ m, entry.2 ≠ 0

instance (m : ServerPortMap) : Decidable (WellFormedMap m) := by
  unfold WellFormedMap; infer_instance

/-- One HTTP response emitted by a handler, with its status code and body. -/
inductive HttpResponse where
  /-- `res.send({ servers, count })`, status 200. -/
  | okServers (servers : ServerPortMap) (count : Nat)
  /-- `res.send({ port })`, status 200. -/
  | okPort (port : Nat)
  /-- `res.send({ ports })`, status 200. -/
  | okPorts (ports : List Nat)
  /-- `res.send(200)` (delete success confirmation), status 200. -/
  | okConfirm
  /-- `res.status(409).send(...)` with the conflicting instance id and its
  already-recorded port interpolated into the message. -/
  | conflict409 (instanceId : String) (port : Nat)
  /-- `res.status(400).send(...)`. -/
  | badRequest400
  /-- `send404`: `res.status(404).send(...)` naming the instance id. -/
  | notFound404 (instanceId : String)
  deriving DecidableEq, Repr

/-- HTTP status code of a response. -/
def HttpResponse.status : HttpResponse → Nat
  | .conflict409 _ _ => 409
  | .badRequest400 => 400
  | .notFound404 _ => 404
  | _ => 200

/-- `send404(res, instanceId)`. -/
def send404 (instanceId : String) : HttpResponse :=
  HttpResponse.notFound404 instanceId

/-- Handler for `GET /servers`: sends the whole map and
`Object.keys(map).length`; the registry is untouched. -/
def getServers (m : ServerPortMap) : HttpResponse × ServerPortMap :=
  (HttpResponse.okServers m (objectKeys m).length, m)

/-- Handler for `GET /servers/:instanceId`: sends `{ port }` when the read
is truthy, otherwise `send404`. -/
def getServerPortByInstanceId (m : ServerPortMap) (instanceId : String) :
    HttpResponse × ServerPortMap :=
  if portTruthy m instanceId then
    (HttpResponse.okPort ((lookupPort m instanceId).getD 0), m)
  else
    (send404 instanceId, m)

/-- Handler for `DELETE /servers/:instanceId`: when the read is truthy the
entry is deleted and `res.send(200)` confirms; otherwise `send404` and the
registry is untouched. -/
def deleteServerInstance (m : ServerPortMap) (instanceId : String) :
    HttpResponse × ServerPortMap :=
  if portTruthy m instanceId then
    (HttpResponse.okConfirm, deletePort m instanceId)
  else
    (send404 instanceId, m)

/-- The guard `port && (port < MIN_PORT_NUMBER || port > MAX_PORT_NUMBER)`
of `assignPortsToServers`: an absent desired port is falsy, and so is the
explicit desired port `0`. -/
def badDesiredPort (minP maxP : Nat) : Option Nat → Bool
  | none => false
  | some p => p != 0 && (decide (p < minP) || decide (maxP < p))

/-- The `instanceIds.forEach` pass of `assignPortsToServers`: for each id
in order, a conflicting id emits a 409 naming its recorded port and is
skipped; otherwise an out-of-range truthy desired port emits a 400 and the
id is skipped; otherwise a `detectPort(port)` promise is pushed.  Returns
the emitted error responses in order and the number of pushed promises. -/
def assignScan (m : ServerPortMap) (minP maxP : Nat) (port? : Option Nat) :
    List String → List HttpResponse × Nat
  | [] => ([], 0)
  | instanceId :: rest =>
    let tail := assignScan m minP maxP port? rest
    if portTruthy m instanceId then
      (HttpResponse.conflict409 instanceId ((lookupPort m instanceId).getD 0) :: tail.1,
        tail.2)
    else if badDesiredPort minP maxP port? then
      (HttpResponse.badRequest400 :: tail.1, tail.2)
    else
      (tail.1, tail.2 + 1)

/-- Handler for `POST /servers` (`assignPortsToServers`).

`minP`/`maxP` stand for the configured `MIN_PORT_NUMBER`/`MAX_PORT_NUMBER`
(their module, `constants/ports`, is outside the reviewed sources).
`detect k` models the settled value of the `k`-th pushed `detectPort(port)`
promise; `Promise.all` keeps the pushed order, so after the scan the code
runs `ports.forEach((port, index) => setPort(instanceIds[index], port))` —
note the index is a position in the compacted `ports` array but is used to
subscript the full `instanceIds` array — and finally sends `{ ports }`. -/
def assignPortsToServers (minP maxP : Nat) (detect : Nat → Nat)
    (m : ServerPortMap) (instanceIds : List String) (port? : Option Nat) :
    List HttpResponse × ServerPortMap :=
  let scan := assignScan m minP maxP port? instanceIds
  let ports := (List.range scan.2).map detect
  let final := (instanceIds.zip ports).foldl (fun acc pr => setPort acc pr.1 pr.2) m
  (scan.1 ++ [HttpResponse.okPorts ports], final)

/-- The response the client actually receives: express delivers the first
`res.send`; later sends on the same request fail in the HTTP layer. -/
def firstResponse (emitted : List HttpResponse) : Option HttpResponse :=
  emitted.head?

/-! ### Startup error handling of `init` -/

/-- The module-level message-key constant of `PortManagerServer.ts`:
`const i18nKey`, holding `utils.PortManagerServer`. -/
def i18nKey : String := "utils.PortManagerServer"

/-- An error rejected by `listen`, as `init` sees it (`BaseError`). -/
structure BaseError where
  code : Option String
  message : String
  deriving DecidableEq, Repr

/-- Outcome of the `catch` block of `init`. -/
inductive InitFailure where
  /-- `throwErrorWithMessage(key, interpolation, cause)`: an error built
  from the i18n message at `key`, interpolated with
  `\x7b port: PORT_MANAGER_SERVER_PORT \x7d`, wrapping the cause. -/
  | thrownWithMessage (messageKey : String) (interpolatedPort : Nat) (cause : BaseError)
  /-- `throw error`: the original listen error, rethrown as-is. -/
  | rethrown (e : BaseError)
  deriving DecidableEq, Repr

/-- The `catch` block of `init` (lines 42–54 of `PortManagerServer.ts`).

`coordPort` stands for the configured `PORT_MANAGER_SERVER_PORT`
(`constants/ports` is outside the reviewed sources).  `i18nFnString` is the
JS string interpolation of the imported *function* `i18n`: the source reads
``throwErrorWithMessage(`${i18n}.portInUse`, ...)``, interpolating the
function value `i18n` — not the key constant `i18nKey` used by every other
message in this module — so the message key is built from the string
rendering of that function (its source text). -/
def initCatch (coordPort : Nat) (i18nFnString : String) (e : BaseError) :
    InitFailure :=
  if e.code = some "EADDRINUSE" then
    InitFailure.thrownWithMessage (i18nFnString ++ ".portInUse") coordPort e
  else
    InitFailure.rethrown e

/-! ### Config generation (`src/config/configUtils.ts`)

The auth-method constants live in `constants/auth`, outside the reviewed
sources.  Modelled from the spec: the three known auth methods — api key,
oauth, personal access key — are constants with pairwise distinct `value`
strings; only their identity and distinctness matter below. -/

/-- An auth-method constant, carrying its `value` discriminator string. -/
structure AuthMethod where
  value : String
  deriving DecidableEq, Repr

/-- Modelled from the spec: the api-key auth method (`constants/auth`). -/
def API_KEY_AUTH_METHOD : AuthMethod := ⟨"apikey"⟩

/-- Modelled from the spec: the oauth auth method (`constants/auth`). -/
def OAUTH_AUTH_METHOD : AuthMethod := ⟨"oauth2"⟩

/-- Modelled from the spec: the personal-access-key auth method
(`constants/auth`). -/
def PERSONAL_ACCESS_KEY_AUTH_METHOD : AuthMethod := ⟨"personalaccesskey"⟩

/-- The `tokenInfo` inside the `auth` object of an oauth account. -/
structure OAuthTokenInfo where
  refreshToken : String
  deriving DecidableEq, Repr

/-- The `auth` object of an oauth account. -/
structure OAuthCreds where
  clientId : String
  clientSecret : String
  scopes : List String
  tokenInfo : OAuthTokenInfo
  deriving DecidableEq, Repr

/-- `CLIAccount_NEW`: the union of the three account shapes the generators
produce; each carries its `authType` discriminator. -/
inductive CLIAccount where
  | apiKeyAccount (authType : String) (accountId : Nat) (apiKey : String) (env : String)
  | personalAccessKeyAccount (authType : String) (accountId : Nat)
      (personalAccessKey : String) (env : String)
  | oauthAccount (authType : String) (accountId : Nat) (auth : OAuthCreds) (env : String)
  deriving DecidableEq, Repr

/-- The `authType` field shared by all three account shapes. -/
def CLIAccount.authType : CLIAccount → String
  | .apiKeyAccount t _ _ _ => t
  | .personalAccessKeyAccount t _ _ _ => t
  | .oauthAccount t _ _ _ => t

/-- The `options` argument of `generateConfig`.  The TS union
`PersonalAccessKeyOptions | OAuthOptions | APIKeyOptions` is flattened into
one record: the `as` casts in the source only project fields off the same
runtime object, so one record with all the fields models every member. -/
structure ConfigOptions where
  accountId : Nat
  env : String
  personalAccessKey : String
  apiKey : String
  clientId : String
  clientSecret : String
  refreshToken : String
  scopes : List String
  deriving DecidableEq, Repr

/-- `CLIConfig_NEW`, restricted to the field `generateConfig` populates. -/
structure CLIConfig where
  accounts : List CLIAccount
  deriving DecidableEq, Repr

/-- `generatePersonalAccessKeyAccountConfig`. -/
def generatePersonalAccessKeyAccountConfig (o : ConfigOptions) : CLIAccount :=
  CLIAccount.personalAccessKeyAccount PERSONAL_ACCESS_KEY_AUTH_METHOD.value
    o.accountId o.personalAccessKey o.env

/-- `generateOauthAccountConfig`. -/
def generateOauthAccountConfig (o : ConfigOptions) : CLIAccount :=
  CLIAccount.oauthAccount OAUTH_AUTH_METHOD.value o.accountId
    ⟨o.clientId, o.clientSecret, o.scopes, ⟨o.refreshToken⟩⟩ o.env

/-- `generateApiKeyAccountConfig`. -/
def generateApiKeyAccountConfig (o : ConfigOptions) : CLIAccount :=
  CLIAccount.apiKeyAccount API_KEY_AUTH_METHOD.value o.accountId o.apiKey o.env

/-- `generateConfig`: `null` when `options` is falsy (absent); then the
`switch (type)` — each known auth method builds its account, the `default`
branch logs and returns `null`; the built account (always truthy) is pushed
onto the `accounts` of the fresh config.  The JS `switch` on the three constant
values is rendered as an equality chain. -/
def generateConfig (type : String) (options : Option ConfigOptions) :
    Option CLIConfig :=
  match options with
  | none => none
  | some opts =>
    if type = API_KEY_AUTH_METHOD.value then
      some ⟨[generateApiKeyAccountConfig opts]⟩
    else if type = PERSONAL_ACCESS_KEY_AUTH_METHOD.value then
      some ⟨[generatePersonalAccessKeyAccountConfig opts]⟩
    else if type = OAUTH_AUTH_METHOD.value then
      some ⟨[generateOauthAccountConfig opts]⟩
    else
      none

/-! ### Registry lemmas -/

theorem objectKeys_cons (entry : String × Nat) (rest : ServerPortMap) :
    objectKeys (entry :: rest) = entry.1 :: objectKeys rest := rfl

theorem lookupPort_eq_none (m : ServerPortMap) (id : String)
    (h : id ∉ objectKeys m) : lookupPort m id = none := by
  induction m with
  | nil => rfl
  | cons entry rest ih =>
    obtain ⟨k, v⟩ := entry
    simp only [objectKeys_cons, List.mem_cons, not_or] at h
    have hk : k ≠ id := fun he => h.1 he.symm
    simp [lookupPort, hk, ih h.2]

theorem mem_of_lookupPort {m : ServerPortMap} {id : String} {p : Nat}
    (h : lookupPort m id = some p) : (id, p) ∈ m := by
  induction m with
  | nil => simp [lookupPort] at h
  | cons entry rest ih =>
    obtain ⟨k, v⟩ := entry
    by_cases he : k = id
    · subst he
      simp only [lookupPort, if_pos rfl] at h
      obtain rfl : v = p := by injection h
      exact List.mem_cons_self _ _
    · simp only [lookupPort, if_neg he] at h
      exact List.mem_cons_of_mem _ (ih h)

theorem lookupPort_setPort_self (m : ServerPortMap) (id : String) (p : Nat) :
    lookupPort (setPort m id p) id = some p := by
  induction m with
  | nil => simp [setPort, lookupPort]
  | cons entry rest ih =>
    obtain ⟨k, v⟩ := entry
    by_cases he : k = id
    · simp [setPort, lookupPort, he]
    · simp [setPort, lookupPort, he, ih]

theorem lookupPort_setPort_ne (m : ServerPortMap) (id id' : String) (p : Nat)
    (h : id' ≠ id) : lookupPort (setPort m id p) id' = lookupPort m id' := by
  have h' : id ≠ id' := Ne.symm h
  induction m with
  | nil => simp [setPort, lookupPort, h']
  | cons entry rest ih =>
    obtain ⟨k, v⟩ := entry
    by_cases he : k = id
    · subst he
      simp [setPort, lookupPort, h']
    · simp [setPort, lookupPort, he, ih]

theorem lookupPort_deletePort_self (m : ServerPortMap) (id : String)
    (h : (objectKeys m).Nodup) : lookupPort (deletePort m id) id = none := by
  induction m with
  | nil => rfl
  | cons entry rest ih =>
    obtain ⟨k, v⟩ := entry
    simp only [objectKeys_cons, List.nodup_cons] at h
    by_cases he : k = id
    · subst he
      simp only [deletePort, if_pos rfl]
      exact lookupPort_eq_none rest k h.1
    · simp only [deletePort, if_neg he, lookupPort, if_neg he]
      exact ih h.2

theorem lookupPort_deletePort_ne (m : ServerPortMap) (id id' : String)
    (h : id' ≠ id) : lookupPort (deletePort m id) id' = lookupPort m id' := by
  have h' : id ≠ id' := Ne.symm h
  induction m with
  | nil => rfl
  | cons entry rest ih =>
    obtain ⟨k, v⟩ := entry
    by_cases he : k = id
    · subst he
      simp [deletePort, lookupPort, h']
    · simp [deletePort, lookupPort, he, ih]

theorem lookupPort_foldl_setPort_not_mem (pairs : List (String × Nat))
    (m : ServerPortMap) (id : String) (h : id ∉ pairs.map Prod.fst) :
    lookupPort (pairs.foldl (fun acc q => setPort acc q.1 q.2) m) id =
      lookupPort m id := by
  induction pairs generalizing m with
  | nil => rfl
  | cons q rest ih =>
    simp only [List.map_cons, List.mem_cons, not_or] at h
    rw [List.foldl_cons, ih _ h.2, lookupPort_setPort_ne _ _ _ _ h.1]

theorem lookupPort_foldl_setPort_of_mem (pairs : List (String × Nat))
    (m : ServerPortMap) (hnodup : (pairs.map Prod.fst).Nodup) :
    ∀ pr ∈ pairs,
      lookupPort (pairs.foldl (fun acc q => setPort acc q.1 q.2) m) pr.1 =
        some pr.2 := by
  induction pairs generalizing m with
  | nil => simp
  | cons q rest ih =>
    simp only [List.map_cons, List.nodup_cons] at hnodup
    intro pr hpr
    rcases List.mem_cons.mp hpr with rfl | hpr
    · rw [List.foldl_cons,
        lookupPort_foldl_setPort_not_mem rest _ _ hnodup.1,
        lookupPort_setPort_self]
    · exact ih _ hnodup.2 pr hpr

/-! ### Scan lemmas for `assignPortsToServers` -/

theorem assignScan_all_fresh (m : ServerPortMap) (minP maxP : Nat)
    (port? : Option Nat) (ids : List String)
    (hfresh : ∀ id ∈ ids, lookupPort m id = none)
    (hport : badDesiredPort minP maxP port? = false) :
    assignScan m minP maxP port? ids = ([], ids.length) := by
  induction ids with
  | nil => rfl
  | cons id rest ih =>
    have h1 : portTruthy m id = false := by
      simp [portTruthy, hfresh id (List.mem_cons_self id rest)]
    simp [assignScan, h1, hport,
      ih (fun i hi => hfresh i (List.mem_cons_of_mem _ hi))]

theorem assignScan_bad_port (m : ServerPortMap) (minP maxP : Nat)
    (port? : Option Nat) (hbad : badDesiredPort minP maxP port? = true)
    (ids : List String) :
    assignScan m minP maxP port? ids =
      (ids.map (fun id =>
        if portTruthy m id then
          HttpResponse.conflict409 id ((lookupPort m id).getD 0)
        else HttpResponse.badRequest400), 0) := by
  induction ids with
  | nil => rfl
  | cons id rest ih =>
    by_cases h : portTruthy m id <;> simp [assignScan, h, hbad, ih]

/-! ### Claim theorems -/

/-- C5: for every instance id with no active assignment, `GET
/servers/:instanceId` responds 404 naming the id and leaves the registry
unchanged; for every id with an active assignment, it responds 200 with the
assigned port and leaves the registry unchanged. -/
theorem C5_get_server_port (m : ServerPortMap) (id : String)
    (hwf : WellFormedMap m) :
    (lookupPort m id = none →
      getServerPortByInstanceId m id = (HttpResponse.notFound404 id, m) ∧
      (HttpResponse.notFound404 id).status = 404) ∧
    ∀ p, lookupPort m id = some p →
      getServerPortByInstanceId m id = (HttpResponse.okPort p, m) ∧
      (HttpResponse.okPort p).status = 200 := by
  constructor
  · intro h
    have ht : portTruthy m id = false := by simp [portTruthy, h]
    simp [getServerPortByInstanceId, ht, send404, HttpResponse.status]
  · intro p h
    have hp : p ≠ 0 := hwf.2 (id, p) (mem_of_lookupPort h)
    have ht : portTruthy m id = true := by simp [portTruthy, h, hp]
    simp [getServerPortByInstanceId, ht, h, HttpResponse.status]

theorem C5_get_server_port_witness :
    (lookupPort [("a", 3000)] "b" = none →
      getServerPortByInstanceId [("a", 3000)] "b" =
        (HttpResponse.notFound404 "b", [("a", 3000)]) ∧
      (HttpResponse.notFound404 "b").status = 404) ∧
    ∀ p, lookupPort [("a", 3000)] "b" = some p →
      getServerPortByInstanceId [("a", 3000)] "b" =
        (HttpResponse.okPort p, [("a", 3000)]) ∧
      (HttpResponse.okPort p).status = 200 :=
  C5_get_server_port [("a", 3000)] "b" (by decide)

/-- C6: deleting an instance id with an existing assignment removes exactly
that entry, confirms with 200, and a subsequent GET for it responds 404;
deleting an id without an assignment responds 404 and leaves the registry
unchanged. -/
theorem C6_delete_server_instance (m : ServerPortMap) (id : String)
    (hwf : WellFormedMap m) :
    (∀ p, lookupPort m id = some p →
      deleteServerInstance m id = (HttpResponse.okConfirm, deletePort m id) ∧
      lookupPort (deletePort m id) id = none ∧
      getServerPortByInstanceId (deletePort m id) id =
        (HttpResponse.notFound404 id, deletePort m id) ∧
      ∀ id', id' ≠ id →
        lookupPort (deletePort m id) id' = lookupPort m id') ∧
    (lookupPort m id = none →
      deleteServerInstance m id = (HttpResponse.notFound404 id, m)) := by
  constructor
  · intro p h
    have hp : p ≠ 0 := hwf.2 (id, p) (mem_of_lookupPort h)
    have ht : portTruthy m id = true := by simp [portTruthy, h, hp]
    have hgone : lookupPort (deletePort m id) id = none :=
      lookupPort_deletePort_self m id hwf.1
    have ht' : portTruthy (deletePort m id) id = false := by
      simp [portTruthy, hgone]
    refine ⟨by simp [deleteServerInstance, ht], hgone, ?_, ?_⟩
    · simp [getServerPortByInstanceId, ht', send404]
    · intro id' hne
      exact lookupPort_deletePort_ne m id id' hne
  · intro h
    have ht : portTruthy m id = false := by simp [portTruthy, h]
    simp [deleteServerInstance, ht, send404]

theorem C6_delete_server_instance_witness :
    (∀ p, lookupPort [("a", 3000), ("b", 4000)] "a" = some p →
      deleteServerInstance [("a", 3000), ("b", 4000)] "a" =
        (HttpResponse.okConfirm, deletePort [("a", 3000), ("b", 4000)] "a") ∧
      lookupPort (deletePort [("a", 3000), ("b", 4000)] "a") "a" = none ∧
      getServerPortByInstanceId (deletePort [("a", 3000), ("b", 4000)] "a") "a" =
        (HttpResponse.notFound404 "a", deletePort [("a", 3000), ("b", 4000)] "a") ∧
      ∀ id', id' ≠ "a" →
        lookupPort (deletePort [("a", 3000), ("b", 4000)] "a") id' =
          lookupPort [("a", 3000), ("b", 4000)] id') ∧
    (lookupPort [("a", 3000), ("b", 4000)] "a" = none →
      deleteServerInstance [("a", 3000), ("b", 4000)] "a" =
        (HttpResponse.notFound404 "a", [("a", 3000), ("b", 4000)])) :=
  C6_delete_server_instance [("a", 3000), ("b", 4000)] "a" (by decide)

/-- C7: `GET /servers` responds 200 with the complete current mapping and a
count equal to the number of recorded assignments, and it leaves the
registry unchanged; the handler is a total function of the registry. -/
theorem C7_get_servers (m : ServerPortMap) :
    getServers m = (HttpResponse.okServers m m.length, m) ∧
    (objectKeys m).length = m.length ∧
    (getServers m).2 = m ∧
    (getServers m).1.status = 200 := by
  refine ⟨?_, ?_, rfl, rfl⟩ <;> simp [getServers, objectKeys]

/-- C9: a `POST /servers` batch with an empty `instanceIds` list emits the
single response `{ ports: [] }` (status 200) and leaves the registry
mapping identical. -/
theorem C9_empty_batch (minP maxP : Nat) (detect : Nat → Nat)
    (m : ServerPortMap) (port? : Option Nat) :
    assignPortsToServers minP maxP detect m [] port? =
      ([HttpResponse.okPorts []], m) := rfl

/-- C1 fails on the code: with registry `b ↦ 4000`, the batch `["b", "a"]`
skips `"b"` (conflict) and detects a port (5000) for `"a"`, but the
recording pass indexes the full `instanceIds` list with the position in the
compacted `ports` array, so the port detected for `"a"` is recorded against
`"b"` and `"a"` is left unassigned; the response lists one port for a
two-element input. -/
theorem C1_ports_misrecorded_on_skip :
    (assignPortsToServers 1024 65535 (fun _ => 5000) [("b", 4000)]
        ["b", "a"] none).1 =
      [HttpResponse.conflict409 "b" 4000, HttpResponse.okPorts [5000]] ∧
    (assignPortsToServers 1024 65535 (fun _ => 5000) [("b", 4000)]
        ["b", "a"] none).2 = [("b", 5000)] ∧
    lookupPort (assignPortsToServers 1024 65535 (fun _ => 5000) [("b", 4000)]
        ["b", "a"] none).2 "a" = none := by
  refine ⟨rfl, rfl, rfl⟩

/-- C2 fails on the code: with registry `x ↦ 4000`, the batch `["x", "y"]`
emits the 409 for `"x"` naming its recorded port 4000 (and that 409 is the
response the client receives), but after the batch settles the port
detected for `"y"` (6000) has been recorded against `"x"`, overwriting the
original port of the conflicting instance. -/
theorem C2_conflict_port_overwritten :
    firstResponse (assignPortsToServers 1024 65535 (fun _ => 6000)
        [("x", 4000)] ["x", "y"] none).1 =
      some (HttpResponse.conflict409 "x" 4000) ∧
    lookupPort [("x", 4000)] "x" = some 4000 ∧
    lookupPort (assignPortsToServers 1024 65535 (fun _ => 6000)
        [("x", 4000)] ["x", "y"] none).2 "x" = some 6000 := by
  refine ⟨rfl, rfl, rfl⟩

/-- C4 fails as stated on the code: the explicit desired port `0` lies
outside any valid TCP port range (here `[1024, 65535]`), yet because the
guard tests JS truthiness of `port` first, the request is not rejected —
the batch detects a port, mutates the registry, and answers 200. -/
theorem C4_zero_port_counterexample :
    (0 < 1024 ∨ 65535 < 0) ∧
    (assignPortsToServers 1024 65535 (fun _ => 3000) [] ["a"] (some 0)).1 =
      [HttpResponse.okPorts [3000]] ∧
    (assignPortsToServers 1024 65535 (fun _ => 3000) [] ["a"] (some 0)).2 =
      [("a", 3000)] ∧
    (assignPortsToServers 1024 65535 (fun _ => 3000) [] ["a"] (some 0)).2 ≠
      ([] : ServerPortMap) := by
  refine ⟨Or.inl (by omega), rfl, rfl, by decide⟩

/-- C4 (amended): for every batch whose explicit desired port is nonzero
and lies outside `[MIN_PORT_NUMBER, MAX_PORT_NUMBER]`, every non-conflicting
element emits a 400 (conflicting elements emit their 409), the final ports
list is empty, and the registry mapping is identical before and after the
request. -/
theorem C4_out_of_range_port_rejected (minP maxP : Nat) (detect : Nat → Nat)
    (m : ServerPortMap) (ids : List String) (p : Nat)
    (hp0 : p ≠ 0) (hout : p < minP ∨ maxP < p) :
    (assignPortsToServers minP maxP detect m ids (some p)).1 =
      ids.map (fun id =>
        if portTruthy m id then
          HttpResponse.conflict409 id ((lookupPort m id).getD 0)
        else HttpResponse.badRequest400) ++ [HttpResponse.okPorts []] ∧
    (assignPortsToServers minP maxP detect m ids (some p)).2 = m := by
  have hbad : badDesiredPort minP maxP (some p) = true := by
    rcases hout with h | h <;> simp [badDesiredPort, hp0, h]
  have hscan := assignScan_bad_port m minP maxP (some p) hbad ids
  constructor <;> simp [assignPortsToServers, hscan]

theorem C4_out_of_range_port_rejected_witness :
    (assignPortsToServers 1024 65535 (fun _ => 3000) [("x", 4000)]
        ["x", "y"] (some 99999)).1 =
      (["x", "y"] : List String).map (fun id =>
        if portTruthy [("x", 4000)] id then
          HttpResponse.conflict409 id ((lookupPort [("x", 4000)] id).getD 0)
        else HttpResponse.badRequest400) ++ [HttpResponse.okPorts []] ∧
    (assignPortsToServers 1024 65535 (fun _ => 3000) [("x", 4000)]
        ["x", "y"] (some 99999)).2 = [("x", 4000)] :=
  C4_out_of_range_port_rejected 1024 65535 (fun _ => 3000) [("x", 4000)]
    ["x", "y"] 99999 (by decide) (Or.inr (by decide))

/-- C3: for a batch of distinct instance ids none of which has an existing
assignment, with the desired port absent or within `[minP, maxP]`, the
handler emits the single 200 response carrying one detected port per
instance in input order, and afterwards `GET /servers/:id` for each id in
the batch returns exactly the port the POST response listed for it. -/
theorem C3_fresh_batch_assignment (minP maxP : Nat) (detect : Nat → Nat)
    (m : ServerPortMap) (ids : List String) (port? : Option Nat)
    (hnodup : ids.Nodup)
    (hfresh : ∀ id ∈ ids, lookupPort m id = none)
    (hport : port? = none ∨ ∃ p, port? = some p ∧ minP ≤ p ∧ p ≤ maxP)
    (hdetect : ∀ k, detect k ≠ 0) :
    (assignPortsToServers minP maxP detect m ids port?).1 =
      [HttpResponse.okPorts ((List.range ids.length).map detect)] ∧
    ((List.range ids.length).map detect).length = ids.length ∧
    ∀ pr ∈ ids.zip ((List.range ids.length).map detect),
      getServerPortByInstanceId
          (assignPortsToServers minP maxP detect m ids port?).2 pr.1 =
        (HttpResponse.okPort pr.2,
          (assignPortsToServers minP maxP detect m ids port?).2) := by
  have hbad : badDesiredPort minP maxP port? = false := by
    rcases hport with h | ⟨p, hp, h1, h2⟩
    · simp [h, badDesiredPort]
    · have h3 : decide (p < minP) = false := by simp; omega
      have h4 : decide (maxP < p) = false := by simp; omega
      simp [hp, badDesiredPort, h3, h4]
  have hscan : assignScan m minP maxP port? ids = ([], ids.length) :=
    assignScan_all_fresh m minP maxP port? ids hfresh hbad
  have hkeys : (ids.zip ((List.range ids.length).map detect)).map Prod.fst = ids :=
    List.map_fst_zip _ _ (by simp)
  have hstate : (assignPortsToServers minP maxP detect m ids port?).2 =
      (ids.zip ((List.range ids.length).map detect)).foldl
        (fun acc q => setPort acc q.1 q.2) m := by
    simp [assignPortsToServers, hscan]
  refine ⟨by simp [assignPortsToServers, hscan], by simp, ?_⟩
  intro pr hpr
  have hlook : lookupPort
      (assignPortsToServers minP maxP detect m ids port?).2 pr.1 = some pr.2 := by
    rw [hstate]
    exact lookupPort_foldl_setPort_of_mem _ m (by rw [hkeys]; exact hnodup) pr hpr
  have hmem2 : pr.2 ∈ (List.range ids.length).map detect := (List.of_mem_zip hpr).2
  have hp2 : pr.2 ≠ 0 := by
    rcases List.mem_map.mp hmem2 with ⟨k, _, hk⟩
    rw [← hk]
    exact hdetect k
  have ht : portTruthy
      (assignPortsToServers minP maxP detect m ids port?).2 pr.1 = true := by
    simp [portTruthy, hlook, hp2]
  simp [getServerPortByInstanceId, ht, hlook]

theorem C3_fresh_batch_assignment_witness :
    (assignPortsToServers 1024 65535 (fun k => 3000 + k) []
        ["a", "b"] none).1 =
      [HttpResponse.okPorts ((List.range (["a", "b"] : List String).length).map
        (fun k => 3000 + k))] ∧
    ((List.range (["a", "b"] : List String).length).map
        (fun k => 3000 + k)).length = (["a", "b"] : List String).length ∧
    ∀ pr ∈ (["a", "b"] : List String).zip
        ((List.range (["a", "b"] : List String).length).map (fun k => 3000 + k)),
      getServerPortByInstanceId
          (assignPortsToServers 1024 65535 (fun k => 3000 + k) []
            ["a", "b"] none).2 pr.1 =
        (HttpResponse.okPort pr.2,
          (assignPortsToServers 1024 65535 (fun k => 3000 + k) []
            ["a", "b"] none).2) :=
  C3_fresh_batch_assignment 1024 65535 (fun k => 3000 + k) [] ["a", "b"] none
    (by decide) (fun _ _ => rfl) (Or.inl rfl) (fun k => by show 3000 + k ≠ 0; omega)

theorem string_append_right_cancel (s t u : String) (h : s ++ u = t ++ u) :
    s = t := by
  have hd := congrArg String.data h
  simp only [String.data_append] at hd
  exact String.ext (List.append_cancel_right hd)

/-- C8: when `listen` rejects with `EADDRINUSE`, `init` throws a wrapped
error distinct from every other startup failure (those are rethrown
unchanged), interpolating the coordination port — but the message key it
builds is `` `${i18n}.portInUse` ``, interpolating the *function* `i18n`
instead of the module key constant `i18nKey`, so for any string rendering
of that function (which is its source text, never the dotted constant
`utils.PortManagerServer`) the key differs from the intended
`utils.PortManagerServer.portInUse` and the thrown error does not carry the
intended port-in-use message. -/
theorem C8_init_eaddrinuse_wrong_message_key (coordPort : Nat)
    (i18nFnString : String) (e : BaseError)
    (hfn : i18nFnString ≠ i18nKey) :
    (e.code = some "EADDRINUSE" →
      initCatch coordPort i18nFnString e =
        InitFailure.thrownWithMessage (i18nFnString ++ ".portInUse") coordPort e ∧
      i18nFnString ++ ".portInUse" ≠ i18nKey ++ ".portInUse") ∧
    (e.code ≠ some "EADDRINUSE" →
      initCatch coordPort i18nFnString e = InitFailure.rethrown e) := by
  constructor
  · intro h
    refine ⟨by simp [initCatch, h], ?_⟩
    intro hk
    exact hfn (string_append_right_cancel _ _ _ hk)
  · intro h
    simp [initCatch, h]

theorem C8_init_eaddrinuse_wrong_message_key_witness :
    ((⟨some "EADDRINUSE", "listen EADDRINUSE"⟩ : BaseError).code =
        some "EADDRINUSE" →
      initCatch 8080 "function i18n(key, interpolation)"
          ⟨some "EADDRINUSE", "listen EADDRINUSE"⟩ =
        InitFailure.thrownWithMessage
          ("function i18n(key, interpolation)" ++ ".portInUse") 8080
          ⟨some "EADDRINUSE", "listen EADDRINUSE"⟩ ∧
      "function i18n(key, interpolation)" ++ ".portInUse" ≠
        i18nKey ++ ".portInUse") ∧
    ((⟨some "EADDRINUSE", "listen EADDRINUSE"⟩ : BaseError).code ≠
        some "EADDRINUSE" →
      initCatch 8080 "function i18n(key, interpolation)"
          ⟨some "EADDRINUSE", "listen EADDRINUSE"⟩ =
        InitFailure.rethrown ⟨some "EADDRINUSE", "listen EADDRINUSE"⟩) :=
  C8_init_eaddrinuse_wrong_message_key 8080
    "function i18n(key, interpolation)"
    ⟨some "EADDRINUSE", "listen EADDRINUSE"⟩ (by decide)

/-- C10: `generateConfig` returns `null` exactly when `options` is absent
or the auth type is none of the three known auth methods; for each known
auth type with options present, the `accounts` list of the result holds exactly
one account whose `authType` equals the requested type. -/
theorem C10_generateConfig (type : String) (options : Option ConfigOptions) :
    (generateConfig type options = none ↔
      options = none ∨
        (type ≠ API_KEY_AUTH_METHOD.value ∧
          type ≠ PERSONAL_ACCESS_KEY_AUTH_METHOD.value ∧
          type ≠ OAUTH_AUTH_METHOD.value)) ∧
    ∀ opts, options = some opts →
      (type = API_KEY_AUTH_METHOD.value ∨
        type = PERSONAL_ACCESS_KEY_AUTH_METHOD.value ∨
        type = OAUTH_AUTH_METHOD.value) →
      (generateConfig type options).map
          (fun c => c.accounts.map CLIAccount.authType) = some [type] := by
  have hba : PERSONAL_ACCESS_KEY_AUTH_METHOD.value ≠ API_KEY_AUTH_METHOD.value := by
    decide
  have hca : OAUTH_AUTH_METHOD.value ≠ API_KEY_AUTH_METHOD.value := by decide
  have hcb : OAUTH_AUTH_METHOD.value ≠ PERSONAL_ACCESS_KEY_AUTH_METHOD.value := by
    decide
  constructor
  · cases options with
    | none => simp [generateConfig]
    | some opts =>
      by_cases h1 : type = API_KEY_AUTH_METHOD.value
      · simp [generateConfig, h1]
      · by_cases h2 : type = PERSONAL_ACCESS_KEY_AUTH_METHOD.value
        · simp [generateConfig, h1, h2, hba]
        · by_cases h3 : type = OAUTH_AUTH_METHOD.value
          · simp [generateConfig, h1, h2, h3, hca, hcb]
          · simp [generateConfig, h1, h2, h3]
  · rintro opts rfl ht
    rcases ht with h | h | h
    · simp [generateConfig, h, generateApiKeyAccountConfig, CLIAccount.authType]
    · simp [generateConfig, h, hba, generatePersonalAccessKeyAccountConfig,
        CLIAccount.authType]
    · simp [generateConfig, h, hca, hcb, generateOauthAccountConfig,
        CLIAccount.authType]

/-- A concrete `options` object for the C10 witness. -/
def sampleOptions : ConfigOptions :=
  ⟨123, "prod", "pak-secret", "api-key-secret", "client-id", "client-secret",
    "refresh-token", ["scope1"]⟩

theorem C10_generateConfig_witness :
    (generateConfig "apikey" (some sampleOptions) = none ↔
      (some sampleOptions : Option ConfigOptions) = none ∨
        (("apikey" : String) ≠ API_KEY_AUTH_METHOD.value ∧
          ("apikey" : String) ≠ PERSONAL_ACCESS_KEY_AUTH_METHOD.value ∧
          ("apikey" : String) ≠ OAUTH_AUTH_METHOD.value)) ∧
    ∀ opts, (some sampleOptions : Option ConfigOptions) = some opts →
      (("apikey" : String) = API_KEY_AUTH_METHOD.value ∨
        ("apikey" : String) = PERSONAL_ACCESS_KEY_AUTH_METHOD.value ∨
        ("apikey" : String) = OAUTH_AUTH_METHOD.value) →
      (generateConfig "apikey" (some sampleOptions)).map
          (fun c => c.accounts.map CLIAccount.authType) = some ["apikey"] :=
  C10_generateConfig "apikey" (some sampleOptions)

end LocalDevLib
